import Mathlib

/-!
# Verification of the `api_manager` weather pipeline

Shallow embedding of the repository's weather pipeline:
* `src/weather/types.py` — the pydantic models `HourlyData`, `HourlyUnits`,
  `WeatherResult` (the Response Validator);
* `src/weather/location.py` — `get_longitude_and_latitude_for_address`
  (the Geocode Resolver);
* `src/weather/run.py` — `run_weather_request` (the Forecast Fetcher,
  chaining geocode → HTTP GET → `raise_for_status` → JSON parse → validation);
* `src/user_interface/weather_screen.py` — the interactive `WeatherScreen`
  (submit handling, the background fetch, result/error display).

External collaborators (geocoding provider, HTTP transport) are passed in
as function parameters; JSON payloads are an explicit inductive type, so
validation is a total computable function.
-/

set_option autoImplicit false

namespace ApiManager

/-- A decoded JSON value (what `response.json()` hands to pydantic).
Numbers are rationals: JSON numbers are finite decimal literals, and the
program only stores and prints them, never does float arithmetic on them. -/
inductive Json where
  | num (q : ℚ)
  | str (s : String)
  | jbool (b : Bool)
  | arr (xs : List Json)
  | obj (fields : List (String × Json))
  | null

/-- Key lookup in a decoded JSON object (Python `dict` access semantics;
a decoded JSON object has no duplicate keys, so first match suffices). -/
def lookupField : List (String × Json) → String → Option Json
  | [], _ => none
  | (k, v) :: rest, key => if k = key then some v else lookupField rest key

/-- Calendar timestamp at minute resolution, the shape the weather API
returns in `hourly.time` (ISO-8601 `YYYY-MM-DDTHH:MM`) and the precision
`strftime('%Y-%m-%d %H:%M')` prints in `display_weather_results`. -/
structure DateTime where
  year : Nat
  month : Nat
  day : Nat
  hour : Nat
  minute : Nat
deriving Repr, DecidableEq

def digitVal (c : Char) : Option Nat :=
  if c.isDigit then some (c.toNat - 48) else none

def twoDigits (a b : Char) : Option Nat := do
  let x ← digitVal a
  let y ← digitVal b
  pure (10 * x + y)

def fourDigits (a b c d : Char) : Option Nat := do
  let x ← twoDigits a b
  let y ← twoDigits c d
  pure (100 * x + y)

/-- Parse an ISO-8601 minute-precision timestamp `YYYY-MM-DDTHH:MM`, the
format the weather API emits, checking calendar ranges as pydantic's
datetime validation does. -/
def parseDatetime (s : String) : Option DateTime :=
  match s.toList with
  | [y1, y2, y3, y4, '-', m1, m2, '-', d1, d2, 'T', h1, h2, ':', n1, n2] => do
    let y ← fourDigits y1 y2 y3 y4
    let mo ← twoDigits m1 m2
    let d ← twoDigits d1 d2
    let h ← twoDigits h1 h2
    let mi ← twoDigits n1 n2
    if 1 ≤ mo ∧ mo ≤ 12 ∧ 1 ≤ d ∧ d ≤ 31 ∧ h ≤ 23 ∧ mi ≤ 59 then
      pure ⟨y, mo, d, h, mi⟩
    else none
  | _ => none

/-- pydantic `float` field: accepts a JSON number. -/
def asFloat : Json → Option ℚ
  | .num q => some q
  | _ => none

/-- pydantic `int` field: accepts a JSON number with no fractional part. -/
def asInt : Json → Option Int
  | .num q => if q.den = 1 then some q.num else none
  | _ => none

/-- pydantic `str` field: accepts a JSON string. -/
def asStr : Json → Option String
  | .str s => some s
  | _ => none

/-- pydantic `datetime` field, for the string timestamps the API emits. -/
def asDatetime : Json → Option DateTime
  | .str s => parseDatetime s
  | _ => none

/-- Element-wise conversion of a JSON array's items; fails if any item
fails, as pydantic does for a `list[...]` field. -/
def convertAll {α : Type} (f : Json → Option α) : List Json → Option (List α)
  | [] => some []
  | x :: xs =>
    match f x, convertAll f xs with
    | some y, some ys => some (y :: ys)
    | _, _ => none

/-- pydantic `list[float]` field. -/
def asFloatList : Json → Option (List ℚ)
  | .arr xs => convertAll asFloat xs
  | _ => none

/-- pydantic `list[datetime]` field. -/
def asDatetimeList : Json → Option (List DateTime)
  | .arr xs => convertAll asDatetime xs
  | _ => none

/-- Pydantic model `HourlyData` from `src/weather/types.py`:
`temperature_2m: list[float]`, `time: list[datetime]`. -/
structure HourlyData where
  temperature_2m : List ℚ
  time : List DateTime
deriving Repr, DecidableEq

/-- Pydantic model `HourlyUnits` from `src/weather/types.py`. -/
structure HourlyUnits where
  temperature_2m : String
  time : String
deriving Repr, DecidableEq

/-- Pydantic model `WeatherResult` from `src/weather/types.py`, fields in
declaration order. -/
structure WeatherResult where
  hourly : HourlyData
  hourly_units : HourlyUnits
  elevation : ℚ
  latitude : ℚ
  longitude : ℚ
  timezone : String
  timezone_abbreviation : String
  utc_offset_seconds : Int
  generationtime_ms : ℚ
deriving Repr, DecidableEq

/-- Error-accumulating application, mirroring how pydantic validates every
field and reports all offending field locations in one `ValidationError`. -/
def vApp {α β : Type} : Except (List String) (α → β) → Except (List String) α →
    Except (List String) β
  | .ok f, .ok a => .ok (f a)
  | .error e, .ok _ => .error e
  | .ok _, .error e => .error e
  | .error e, .error e' => .error (e ++ e')

/-- One field check: the field must be present and convertible; on failure
the reported location is `label` (pydantic's error `loc`). -/
def checkField {α : Type} (fs : List (String × Json)) (key label : String)
    (conv : Json → Option α) : Except (List String) α :=
  match lookupField fs key with
  | none => .error [label]
  | some v =>
    match conv v with
    | none => .error [label]
    | some a => .ok a

/-- Validation of the nested `hourly` object into `HourlyData`. -/
def validateHourly : Json → Except (List String) HourlyData
  | .obj fs =>
    vApp (vApp (.ok HourlyData.mk)
      (checkField fs "temperature_2m" "hourly.temperature_2m" asFloatList))
      (checkField fs "time" "hourly.time" asDatetimeList)
  | _ => .error ["hourly"]

/-- Validation of the nested `hourly_units` object into `HourlyUnits`. -/
def validateHourlyUnits : Json → Except (List String) HourlyUnits
  | .obj fs =>
    vApp (vApp (.ok HourlyUnits.mk)
      (checkField fs "temperature_2m" "hourly_units.temperature_2m" asStr))
      (checkField fs "time" "hourly_units.time" asStr)
  | _ => .error ["hourly_units"]

def checkHourly (fs : List (String × Json)) : Except (List String) HourlyData :=
  match lookupField fs "hourly" with
  | none => .error ["hourly"]
  | some v => validateHourly v

def checkHourlyUnits (fs : List (String × Json)) : Except (List String) HourlyUnits :=
  match lookupField fs "hourly_units" with
  | none => .error ["hourly_units"]
  | some v => validateHourlyUnits v

/-- Construction `WeatherResult(**data)`: pydantic validation of the decoded payload.
Checks every declared field, accumulating the offending field locations;
extra keys are ignored (pydantic's default `extra='ignore'` for `**` input).
Succeeds with the typed `WeatherResult` exactly when every field validates. -/
def mkWeatherResult (fs : List (String × Json)) : Except (List String) WeatherResult :=
  vApp (vApp (vApp (vApp (vApp (vApp (vApp (vApp (vApp
    (.ok WeatherResult.mk)
    (checkHourly fs))
    (checkHourlyUnits fs))
    (checkField fs "elevation" "elevation" asFloat))
    (checkField fs "latitude" "latitude" asFloat))
    (checkField fs "longitude" "longitude" asFloat))
    (checkField fs "timezone" "timezone" asStr))
    (checkField fs "timezone_abbreviation" "timezone_abbreviation" asStr))
    (checkField fs "utc_offset_seconds" "utc_offset_seconds" asInt))
    (checkField fs "generationtime_ms" "generationtime_ms" asFloat)

/-! ## Pipeline: geocode → HTTP fetch → validate (`src/weather/`) -/

/-- The three failure kinds of the pipeline (spec §7), as the source raises
them: `location.py` raises a bare `Exception` with a fixed message when no
match is found, `requests.raise_for_status` raises `HTTPError` for a
client/server error status, and pydantic raises `ValidationError` carrying
the offending field locations. -/
inductive WeatherError where
  | notFound (msg : String)
  | httpError (status : Nat)
  | validationError (fields : List String)
deriving Repr, DecidableEq

/-- A geocoding provider match (geopy `Location`): has `.latitude` and
`.longitude` attributes. -/
structure GeoLocation where
  latitude : ℚ
  longitude : ℚ
deriving Repr, DecidableEq

/-- Function `get_longitude_and_latitude_for_address` from `src/weather/location.py`.
The provider (`Nominatim(...).geocode`) is a parameter returning `none`
for no match (Python `None`, falsy). Despite the function's name it
returns `(latitude, longitude)` in that order. -/
def get_longitude_and_latitude_for_address
    (geocode : String → Option GeoLocation) (address : String) :
    Except WeatherError (ℚ × ℚ) :=
  match geocode address with
  | none => .error (.notFound "Could not find coordinates for address")
  | some location => .ok (location.latitude, location.longitude)

/-- The already-received HTTP response: final status code and decoded JSON
object body (the weather API responds with a JSON object). -/
structure HttpResponse where
  status : Nat
  body : List (String × Json)

/-- Method `requests.Response.raise_for_status`: raises `HTTPError` exactly for a
client error (400–499) or server error (500–599) status. -/
def raise_for_status (status : Nat) : Except WeatherError Unit :=
  if 400 ≤ status ∧ status < 600 then .error (.httpError status) else .ok ()

/-- Observable steps of `run_weather_request`, recorded in order, to state
which stages a run reaches (`.validateStep` is the pydantic construction of
`WeatherResult` from the parsed body). -/
inductive Effect where
  | geocodeCall (address : String)
  | httpGet (lat long : ℚ)
  | validateStep
deriving Repr, DecidableEq

/-- Function `run_weather_request` from `src/weather/run.py`: geocode the address,
GET the forecast for the coordinates, `raise_for_status`, then parse and
validate the body into a `WeatherResult`. Returns the result together with
the trace of steps actually executed. -/
def run_weather_request (geocode : String → Option GeoLocation)
    (http : ℚ → ℚ → HttpResponse) (address : String) :
    Except WeatherError WeatherResult × List Effect :=
  match get_longitude_and_latitude_for_address geocode address with
  | .error e => (.error e, [.geocodeCall address])
  | .ok (lat, long) =>
    let response := http lat long
    match raise_for_status response.status with
    | .error e => (.error e, [.geocodeCall address, .httpGet lat long])
    | .ok _ =>
      (Except.mapError .validationError (mkWeatherResult response.body),
       [.geocodeCall address, .httpGet lat long, .validateStep])

/-! ## Interactive shell: `WeatherScreen` (`src/user_interface/weather_screen.py`) -/

/-- The widget state of `WeatherScreen` that its handlers read and write,
plus the externally observable actions: `pendingWorkers` records each
`run_worker(self.fetch_weather_data(location), ...)` start in order, and
`graphCalls` records each `show_graph(times, temps, location)` call. -/
structure UIState where
  inputValue : String
  submitDisabled : Bool
  submitText : String
  statusMessage : String
  statusColor : String
  resultsText : String
  pendingWorkers : List String
  graphCalls : List (List DateTime × List ℚ × String)
deriving Repr, DecidableEq

/-- Python `str.strip()` with no argument: remove leading and trailing
whitespace. -/
def pyStrip (s : String) : String :=
  ⟨((s.toList.dropWhile Char.isWhitespace).reverse.dropWhile
      Char.isWhitespace).reverse⟩

/-- Method `WeatherScreen.update_status`: set the status text and its colour from
the status type. -/
def update_status (s : UIState) (message status_type : String) : UIState :=
  { s with
    statusMessage := message
    statusColor :=
      if status_type = "error" then "red"
      else if status_type = "success" then "green"
      else if status_type = "warning" then "yellow"
      else "blue" }

/-- Method `WeatherScreen.submit_weather_request`: strip the input; if empty, show
an inline error and return without starting anything; otherwise disable the
submit button, show the loading status, and start the fetch worker. -/
def submit_weather_request (s : UIState) : UIState :=
  let location := pyStrip s.inputValue
  if location = "" then
    update_status s "Please enter a location" "error"
  else
    let s1 := { s with submitDisabled := true, submitText := "Loading..." }
    let s2 := update_status s1 "Fetching weather data..." "info"
    { s2 with pendingWorkers := s2.pendingWorkers ++ [location] }

/-- Method `WeatherScreen.on_input_submitted`: Enter in the location input calls
`submit_weather_request` directly, with no guard on the worker or on the
submit button's disabled flag. -/
def on_input_submitted (s : UIState) (inputId : String) : UIState :=
  if inputId = "location-input" then submit_weather_request s else s

/-- A user press of the Submit button. The widget toolkit delivers a
`Button.Pressed` event (handled by `WeatherScreen.on_button_pressed`) only
when the button is enabled; a disabled button swallows the click. -/
def press_submit_button (s : UIState) : UIState :=
  if s.submitDisabled then s else submit_weather_request s

def pad2 (n : Nat) : String :=
  if n < 10 then "0" ++ toString n else toString n

def pad4 (n : Nat) : String :=
  if n < 10 then "000" ++ toString n
  else if n < 100 then "00" ++ toString n
  else if n < 1000 then "0" ++ toString n
  else toString n

/-- Python `time.strftime('%Y-%m-%d %H:%M')`. -/
def strftime (t : DateTime) : String :=
  pad4 t.year ++ "-" ++ pad2 t.month ++ "-" ++ pad2 t.day ++ " " ++
    pad2 t.hour ++ ":" ++ pad2 t.minute

/-- Decimal rendering of a stored number (Python `str` of a float); the
exact digit string is irrelevant to the verified properties. -/
def qStr (q : ℚ) : String :=
  if q.den = 1 then toString q.num ++ ".0"
  else toString q.num ++ "/" ++ toString q.den

/-- One hourly forecast line of `display_weather_results`:
`f"{time.strftime('%Y-%m-%d %H:%M')}: {temp}°F\n"`. -/
def hourlyLine (t : DateTime) (temp : ℚ) : String :=
  strftime t ++ ": " ++ qStr temp ++ "°F\n"

/-- The formatted hourly lines: `zip(times[:24], temps[:24])`, one line per
pair, in order. -/
def hourlyLines (times : List DateTime) (temps : List ℚ) : List String :=
  ((times.take 24).zip (temps.take 24)).map fun p => hourlyLine p.1 p.2

/-- Expression `temps[0] if temps else "N/A"`, rendered. -/
def currentTempStr (temps : List ℚ) : String :=
  match temps with
  | [] => "N/A"
  | t :: _ => qStr t

/-- The metadata part of the header block of `results_text`: current
temperature, timezone, elevation, coordinates, and the forecast heading. -/
def metaBlock (r : WeatherResult) : String :=
  "\nCurrent Temperature: " ++ currentTempStr r.hourly.temperature_2m ++
    "°F\nTimezone: " ++ r.timezone ++
    "\nElevation: " ++ qStr r.elevation ++
    "m\nLatitude: " ++ qStr r.latitude ++
    "\nLongitude: " ++ qStr r.longitude ++
    "\n\nTemperature Forecast (next 24 hours):\n"

/-- The text block built by `display_weather_results`: header line with the
location, the metadata block, then the formatted hourly lines. -/
def results_text (location : String) (r : WeatherResult) : String :=
  "Weather for: " ++ location ++ metaBlock r ++
    String.join (hourlyLines r.hourly.time r.hourly.temperature_2m)

/-- Method `WeatherScreen.display_weather_results`: re-enable the submit button,
render `results_text` into the text area, set the success status, and call
`show_graph(times[:24], temps[:24], location)`. (The graph call's own
failure branch only downgrades the status to a warning; it is not part of
any verified claim.) -/
def display_weather_results (s : UIState) (r : WeatherResult)
    (location : String) : UIState :=
  let s1 := { s with submitDisabled := false, submitText := "Submit" }
  let s2 := { s1 with resultsText := results_text location r }
  let s3 := update_status s2 "Weather data fetched successfully! Showing graph..." "success"
  { s3 with
    graphCalls := s3.graphCalls ++
      [(r.hourly.time.take 24, r.hourly.temperature_2m.take 24, location)] }

/-- Rendering `str(e)` of each pipeline failure, the message handed to
`handle_weather_error`. -/
def errMessage : WeatherError → String
  | .notFound msg => msg
  | .httpError status => toString status ++ " Error for url"
  | .validationError fields =>
    "validation error for WeatherResult: " ++ String.intercalate ", " fields

/-- Method `WeatherScreen.handle_weather_error`: re-enable the submit button, show
the inline error status, clear the results area. -/
def handle_weather_error (s : UIState) (error_message : String) : UIState :=
  let s1 := { s with submitDisabled := false, submitText := "Submit" }
  let s2 := update_status s1 ("Error: " ++ error_message) "error"
  { s2 with resultsText := "" }

/-- Method `WeatherScreen.fetch_weather_data`: await the pipeline result; on
success, if the worker was not cancelled, display the results; on any
exception, if the worker was not cancelled, hand the message to
`handle_weather_error`. The `try/except Exception` covers all three
pipeline failures, so the function is total: every outcome yields a UI
state and nothing propagates to the event loop. -/
def fetch_weather_data (cancelled : Bool)
    (result : Except WeatherError WeatherResult) (location : String)
    (s : UIState) : UIState :=
  match result with
  | .ok r => if cancelled then s else display_weather_results s r location
  | .error e => if cancelled then s else handle_weather_error s (errMessage e)

/-- The whole interactive pipeline for one submitted location: run
`run_weather_request` against the given providers in the worker, then apply
`fetch_weather_data` to its outcome. -/
def pipeline_and_display (geocode : String → Option GeoLocation)
    (http : ℚ → ℚ → HttpResponse) (address : String) (cancelled : Bool)
    (s : UIState) : UIState :=
  fetch_weather_data cancelled (run_weather_request geocode http address).1 address s

/-! ## Derived observation functions over the validator -/

/-- The error locations a validation step reports (empty on success). -/
def errsOf {α : Type} : Except (List String) α → List String
  | .ok _ => []
  | .error e => e

/-- The per-field error locations of a `WeatherResult` validation, in the
model's field declaration order. -/
def componentErrors (fs : List (String × Json)) : List String :=
  errsOf (checkHourly fs) ++
  errsOf (checkHourlyUnits fs) ++
  errsOf (checkField fs "elevation" "elevation" asFloat) ++
  errsOf (checkField fs "latitude" "latitude" asFloat) ++
  errsOf (checkField fs "longitude" "longitude" asFloat) ++
  errsOf (checkField fs "timezone" "timezone" asStr) ++
  errsOf (checkField fs "timezone_abbreviation" "timezone_abbreviation" asStr) ++
  errsOf (checkField fs "utc_offset_seconds" "utc_offset_seconds" asInt) ++
  errsOf (checkField fs "generationtime_ms" "generationtime_ms" asFloat)

/-- Enumeration of the nine required top-level fields of `WeatherResult`,
in declaration order. -/
inductive TopField where
  | hourly
  | hourly_units
  | elevation
  | latitude
  | longitude
  | timezone
  | timezone_abbreviation
  | utc_offset_seconds
  | generationtime_ms
deriving Repr, DecidableEq

/-- The payload key of a required top-level field. -/
def TopField.key : TopField → String
  | .hourly => "hourly"
  | .hourly_units => "hourly_units"
  | .elevation => "elevation"
  | .latitude => "latitude"
  | .longitude => "longitude"
  | .timezone => "timezone"
  | .timezone_abbreviation => "timezone_abbreviation"
  | .utc_offset_seconds => "utc_offset_seconds"
  | .generationtime_ms => "generationtime_ms"

/-- The error locations that name a field: the field's own key, or, for
the two nested models, an inner location prefixed with the field's key. -/
def TopField.labels : TopField → List String
  | .hourly => ["hourly", "hourly.temperature_2m", "hourly.time"]
  | .hourly_units =>
    ["hourly_units", "hourly_units.temperature_2m", "hourly_units.time"]
  | f => [f.key]

/-- A scalar field is missing or of the wrong shape: the key is absent, or
present with a value its converter rejects. -/
def scalarBad {α : Type} (fs : List (String × Json)) (key : String)
    (conv : Json → Option α) : Prop :=
  match lookupField fs key with
  | none => True
  | some v => conv v = none

/-- Field `f` is missing from the payload or of the wrong shape; for the
two nested models, wrong shape means their own validation fails. -/
def TopField.badAt : TopField → List (String × Json) → Prop
  | .hourly, fs =>
    match lookupField fs "hourly" with
    | none => True
    | some v => ∀ h, validateHourly v ≠ .ok h
  | .hourly_units, fs =>
    match lookupField fs "hourly_units" with
    | none => True
    | some v => ∀ u, validateHourlyUnits v ≠ .ok u
  | .elevation, fs => scalarBad fs "elevation" asFloat
  | .latitude, fs => scalarBad fs "latitude" asFloat
  | .longitude, fs => scalarBad fs "longitude" asFloat
  | .timezone, fs => scalarBad fs "timezone" asStr
  | .timezone_abbreviation, fs => scalarBad fs "timezone_abbreviation" asStr
  | .utc_offset_seconds, fs => scalarBad fs "utc_offset_seconds" asInt
  | .generationtime_ms, fs => scalarBad fs "generationtime_ms" asFloat

/-- The error locations the validation of field `f` reports on a payload:
the segment of `componentErrors` contributed by that field. -/
def TopField.errs : TopField → List (String × Json) → List String
  | .hourly, fs => errsOf (checkHourly fs)
  | .hourly_units, fs => errsOf (checkHourlyUnits fs)
  | .elevation, fs => errsOf (checkField fs "elevation" "elevation" asFloat)
  | .latitude, fs => errsOf (checkField fs "latitude" "latitude" asFloat)
  | .longitude, fs => errsOf (checkField fs "longitude" "longitude" asFloat)
  | .timezone, fs => errsOf (checkField fs "timezone" "timezone" asStr)
  | .timezone_abbreviation, fs =>
    errsOf (checkField fs "timezone_abbreviation" "timezone_abbreviation" asStr)
  | .utc_offset_seconds, fs =>
    errsOf (checkField fs "utc_offset_seconds" "utc_offset_seconds" asInt)
  | .generationtime_ms, fs =>
    errsOf (checkField fs "generationtime_ms" "generationtime_ms" asFloat)

/-! ## Concrete sample data and stub environments

Used as the concrete inputs of witnesses, counterexamples and scenario
checks: the stub coordinates (51.5, -0.12) and the 3-entry payload of the
spec's end-to-end scenario. -/

/-- A well-formed weather API payload with 3 hourly entries, as decoded
JSON. -/
def samplePayload3 : List (String × Json) :=
  [("latitude", .num (103 / 2)),
   ("longitude", .num (-3 / 25)),
   ("generationtime_ms", .num (1 / 2)),
   ("utc_offset_seconds", .num 0),
   ("timezone", .str "Europe/London"),
   ("timezone_abbreviation", .str "GMT"),
   ("elevation", .num 38),
   ("hourly_units",
    .obj [("time", .str "iso8601"), ("temperature_2m", .str "°F")]),
   ("hourly",
    .obj [("time", .arr [.str "2024-01-01T00:00", .str "2024-01-01T01:00",
                         .str "2024-01-01T02:00"]),
          ("temperature_2m", .arr [.num 72, .num 71, .num 70])])]

/-- The `WeatherResult` the validator produces from `samplePayload3`. -/
def sampleResult3 : WeatherResult :=
  { hourly := ⟨[72, 71, 70],
      [⟨2024, 1, 1, 0, 0⟩, ⟨2024, 1, 1, 1, 0⟩, ⟨2024, 1, 1, 2, 0⟩]⟩
    hourly_units := ⟨"°F", "iso8601"⟩
    elevation := 38
    latitude := 103 / 2
    longitude := -3 / 25
    timezone := "Europe/London"
    timezone_abbreviation := "GMT"
    utc_offset_seconds := 0
    generationtime_ms := 1 / 2 }

/-- A payload identical to `samplePayload3` except that its two hourly
lists have different lengths: one temperature, two timestamps. Every field
is well-typed. -/
def unequalPayload : List (String × Json) :=
  [("latitude", .num (103 / 2)),
   ("longitude", .num (-3 / 25)),
   ("generationtime_ms", .num (1 / 2)),
   ("utc_offset_seconds", .num 0),
   ("timezone", .str "Europe/London"),
   ("timezone_abbreviation", .str "GMT"),
   ("elevation", .num 38),
   ("hourly_units",
    .obj [("time", .str "iso8601"), ("temperature_2m", .str "°F")]),
   ("hourly",
    .obj [("time", .arr [.str "2024-01-01T00:00", .str "2024-01-01T01:00"]),
          ("temperature_2m", .arr [.num 50])])]

/-- The result the validator produces from `unequalPayload`. -/
def unequalResult : WeatherResult :=
  { hourly := ⟨[50], [⟨2024, 1, 1, 0, 0⟩, ⟨2024, 1, 1, 1, 0⟩]⟩
    hourly_units := ⟨"°F", "iso8601"⟩
    elevation := 38
    latitude := 103 / 2
    longitude := -3 / 25
    timezone := "Europe/London"
    timezone_abbreviation := "GMT"
    utc_offset_seconds := 0
    generationtime_ms := 1 / 2 }

/-- A payload identical to `samplePayload3` but with the `latitude` key
absent. -/
def noLatitudePayload : List (String × Json) :=
  [("longitude", .num (-3 / 25)),
   ("generationtime_ms", .num (1 / 2)),
   ("utc_offset_seconds", .num 0),
   ("timezone", .str "Europe/London"),
   ("timezone_abbreviation", .str "GMT"),
   ("elevation", .num 38),
   ("hourly_units",
    .obj [("time", .str "iso8601"), ("temperature_2m", .str "°F")]),
   ("hourly",
    .obj [("time", .arr [.str "2024-01-01T00:00", .str "2024-01-01T01:00",
                         .str "2024-01-01T02:00"]),
          ("temperature_2m", .arr [.num 72, .num 71, .num 70])])]

/-- A stub geocoding provider that resolves every address to the spec's
stub coordinates (51.5, -0.12). -/
def stubGeocode : String → Option GeoLocation :=
  fun _ => some ⟨103 / 2, -3 / 25⟩

/-- A stub geocoding provider that finds no match for any address. -/
def stubGeocodeNone : String → Option GeoLocation :=
  fun _ => none

/-- A stub weather service answering 200 with the 3-entry payload. -/
def stubHttp200 : ℚ → ℚ → HttpResponse :=
  fun _ _ => ⟨200, samplePayload3⟩

/-- A stub weather service answering 304 Not Modified (a non-success,
non-error status) with the 3-entry payload. -/
def stubHttp304 : ℚ → ℚ → HttpResponse :=
  fun _ _ => ⟨304, samplePayload3⟩

/-- A stub weather service answering 404 with the 3-entry payload. -/
def stubHttp404 : ℚ → ℚ → HttpResponse :=
  fun _ _ => ⟨404, samplePayload3⟩

/-- The `WeatherScreen` state while a fetch for "London, England" is in
flight and the user has typed a second location. -/
def inFlightState : UIState :=
  { inputValue := "Paris"
    submitDisabled := true
    submitText := "Loading..."
    statusMessage := "Fetching weather data..."
    statusColor := "blue"
    resultsText := ""
    pendingWorkers := ["London, England"]
    graphCalls := [] }

/-- The `WeatherScreen` state right after mount, with a whitespace-only
location typed in. -/
def whitespaceState : UIState :=
  { inputValue := "   "
    submitDisabled := false
    submitText := "Submit"
    statusMessage := ""
    statusColor := "blue"
    resultsText := ""
    pendingWorkers := []
    graphCalls := [] }

/-- The `WeatherScreen` state right after submitting "London, England". -/
def londonPendingState : UIState :=
  { inputValue := "London, England"
    submitDisabled := true
    submitText := "Loading..."
    statusMessage := "Fetching weather data..."
    statusColor := "blue"
    resultsText := ""
    pendingWorkers := ["London, England"]
    graphCalls := [] }

/-! ## Helper lemmas about the validator -/

theorem errsOf_vApp {α β : Type} (f : Except (List String) (α → β))
    (a : Except (List String) α) : errsOf (vApp f a) = errsOf f ++ errsOf a := by
  cases f <;> cases a <;> simp [vApp, errsOf]

theorem vApp_ok {α β : Type} {f : Except (List String) (α → β)}
    {a : Except (List String) α} {b : β} (h : vApp f a = .ok b) :
    ∃ g x, f = .ok g ∧ a = .ok x ∧ b = g x := by
  cases f with
  | error e => cases a <;> simp [vApp] at h
  | ok g =>
    cases a with
    | error e => simp [vApp] at h
    | ok x =>
      simp only [vApp] at h
      exact ⟨g, x, rfl, rfl, (Except.ok.inj h).symm⟩

theorem convertAll_length {α : Type} (f : Json → Option α) :
    ∀ (xs : List Json) (ys : List α), convertAll f xs = some ys →
      ys.length = xs.length := by
  intro xs
  induction xs with
  | nil =>
    intro ys h
    simp [convertAll] at h
    simp [← h]
  | cons x xs ih =>
    intro ys h
    unfold convertAll at h
    split at h
    · rename_i y ys' hfx hrest
      cases h
      simp [ih ys' hrest]
    · cases h

theorem error_of_mem_errsOf {α : Type} {c : Except (List String) α} {x : String}
    (h : x ∈ errsOf c) : ∃ es, c = .error es ∧ x ∈ es := by
  cases c with
  | ok a => simp [errsOf] at h
  | error es => exact ⟨es, rfl, h⟩

theorem errsOf_mkWeatherResult (fs : List (String × Json)) :
    errsOf (mkWeatherResult fs) = componentErrors fs := by
  unfold mkWeatherResult componentErrors
  rw [errsOf_vApp, errsOf_vApp, errsOf_vApp, errsOf_vApp, errsOf_vApp,
    errsOf_vApp, errsOf_vApp, errsOf_vApp, errsOf_vApp]
  simp [errsOf]

theorem checkField_ok {α : Type} {fs : List (String × Json)} {key label : String}
    {conv : Json → Option α} {a : α} (h : checkField fs key label conv = .ok a) :
    ∃ v, lookupField fs key = some v ∧ conv v = some a := by
  unfold checkField at h
  split at h
  · cases h
  · rename_i v hv
    split at h
    · cases h
    · rename_i a' hc
      cases h
      exact ⟨v, hv, hc⟩

theorem asFloatList_ok {v : Json} {ts : List ℚ} (h : asFloatList v = some ts) :
    ∃ tjs, v = .arr tjs ∧ ts.length = tjs.length := by
  cases v <;> simp [asFloatList] at h
  next xs => exact ⟨xs, rfl, convertAll_length asFloat xs ts h⟩

theorem asDatetimeList_ok {v : Json} {ts : List DateTime}
    (h : asDatetimeList v = some ts) :
    ∃ tjs, v = .arr tjs ∧ ts.length = tjs.length := by
  cases v <;> simp [asDatetimeList] at h
  next xs => exact ⟨xs, rfl, convertAll_length asDatetime xs ts h⟩

theorem checkHourly_ok {fs : List (String × Json)} {h : HourlyData}
    (hc : checkHourly fs = .ok h) :
    ∃ hfs tjs mjs, lookupField fs "hourly" = some (.obj hfs) ∧
      lookupField hfs "temperature_2m" = some (.arr tjs) ∧
      lookupField hfs "time" = some (.arr mjs) ∧
      h.temperature_2m.length = tjs.length ∧
      h.time.length = mjs.length := by
  unfold checkHourly at hc
  cases hv : lookupField fs "hourly" with
  | none => rw [hv] at hc; cases hc
  | some v =>
    rw [hv] at hc
    cases v <;> try cases hc
    next hfs =>
    unfold validateHourly at hc
    obtain ⟨f1, a2, hf1, hc2, hh⟩ := vApp_ok hc
    obtain ⟨f0, a1, hf0, hc1, hff⟩ := vApp_ok hf1
    obtain ⟨v1, hlk1, hcv1⟩ := checkField_ok hc1
    obtain ⟨v2, hlk2, hcv2⟩ := checkField_ok hc2
    obtain ⟨tjs, hv1, hlen1⟩ := asFloatList_ok hcv1
    obtain ⟨mjs, hv2, hlen2⟩ := asDatetimeList_ok hcv2
    subst hv1 hv2
    refine ⟨hfs, tjs, mjs, rfl, hlk1, hlk2, ?_, ?_⟩
    · rw [hh, hff, ← Except.ok.inj hf0]; exact hlen1
    · rw [hh, hff, ← Except.ok.inj hf0]; exact hlen2

theorem mkWeatherResult_ok_hourly {fs : List (String × Json)} {r : WeatherResult}
    (h : mkWeatherResult fs = .ok r) : checkHourly fs = .ok r.hourly := by
  unfold mkWeatherResult at h
  obtain ⟨f8, a9, ht8, hc9, hr⟩ := vApp_ok h
  obtain ⟨f7, a8, ht7, hc8, hf8⟩ := vApp_ok ht8
  obtain ⟨f6, a7, ht6, hc7, hf7⟩ := vApp_ok ht7
  obtain ⟨f5, a6, ht5, hc6, hf6⟩ := vApp_ok ht6
  obtain ⟨f4, a5, ht4, hc5, hf5⟩ := vApp_ok ht5
  obtain ⟨f3, a4, ht3, hc4, hf4⟩ := vApp_ok ht4
  obtain ⟨f2, a3, ht2, hc3, hf3⟩ := vApp_ok ht3
  obtain ⟨f1, a2, ht1, hc2, hf2⟩ := vApp_ok ht2
  obtain ⟨f0, a1, ht0, hc1, hf1⟩ := vApp_ok ht1
  have hmk : f0 = WeatherResult.mk := (Except.ok.inj ht0).symm
  subst hmk
  rw [hr, hf8, hf7, hf6, hf5, hf4, hf3, hf2, hf1]
  exact hc1

theorem errsOf_ok {α : Type} (a : α) : errsOf (Except.ok a) = [] := rfl

theorem checkField_or {α : Type} (fs : List (String × Json)) (key label : String)
    (conv : Json → Option α) :
    (∃ a, checkField fs key label conv = .ok a) ∨
      checkField fs key label conv = .error [label] := by
  rcases hv : lookupField fs key with _ | v
  · exact .inr (by simp [checkField, hv])
  · rcases hc : conv v with _ | a
    · exact .inr (by simp [checkField, hv, hc])
    · exact .inl ⟨a, by simp [checkField, hv, hc]⟩

theorem mem_errsOf_checkField {α : Type} {fs : List (String × Json)}
    {key label : String} {conv : Json → Option α} {l : String}
    (h : l ∈ errsOf (checkField fs key label conv)) : l = label := by
  rcases checkField_or fs key label conv with ⟨a, hc⟩ | hc
  · rw [hc] at h
    simp [errsOf] at h
  · rw [hc] at h
    simp [errsOf] at h
    exact h

theorem scalarBad_checkField {α : Type} {fs : List (String × Json)} {key : String}
    {conv : Json → Option α} (label : String) (h : scalarBad fs key conv) :
    checkField fs key label conv = .error [label] := by
  unfold scalarBad at h
  rcases hv : lookupField fs key with _ | v
  · simp [checkField, hv]
  · rw [hv] at h
    have h' : conv v = none := h
    simp [checkField, hv, h']

theorem validateHourly_error_ne {v : Json} {e : List String}
    (h : validateHourly v = .error e) : e ≠ [] := by
  intro hnil
  subst hnil
  cases v with
  | obj hfs =>
    have h' : vApp (vApp (Except.ok HourlyData.mk)
        (checkField hfs "temperature_2m" "hourly.temperature_2m" asFloatList))
        (checkField hfs "time" "hourly.time" asDatetimeList) =
        .error ([] : List String) := h
    rcases checkField_or hfs "temperature_2m" "hourly.temperature_2m"
        asFloatList with ⟨a1, h1⟩ | h1 <;>
      rcases checkField_or hfs "time" "hourly.time"
          asDatetimeList with ⟨a2, h2⟩ | h2 <;>
        rw [h1, h2] at h' <;> simp [vApp] at h'
  | num q => simp [validateHourly] at h
  | str s => simp [validateHourly] at h
  | jbool b => simp [validateHourly] at h
  | arr xs => simp [validateHourly] at h
  | null => simp [validateHourly] at h

theorem validateHourlyUnits_error_ne {v : Json} {e : List String}
    (h : validateHourlyUnits v = .error e) : e ≠ [] := by
  intro hnil
  subst hnil
  cases v with
  | obj hfs =>
    have h' : vApp (vApp (Except.ok HourlyUnits.mk)
        (checkField hfs "temperature_2m" "hourly_units.temperature_2m" asStr))
        (checkField hfs "time" "hourly_units.time" asStr) =
        .error ([] : List String) := h
    rcases checkField_or hfs "temperature_2m" "hourly_units.temperature_2m"
        asStr with ⟨a1, h1⟩ | h1 <;>
      rcases checkField_or hfs "time" "hourly_units.time"
          asStr with ⟨a2, h2⟩ | h2 <;>
        rw [h1, h2] at h' <;> simp [vApp] at h'
  | num q => simp [validateHourlyUnits] at h
  | str s => simp [validateHourlyUnits] at h
  | jbool b => simp [validateHourlyUnits] at h
  | arr xs => simp [validateHourlyUnits] at h
  | null => simp [validateHourlyUnits] at h

theorem checkHourly_errs_ne_nil {fs : List (String × Json)}
    (h : TopField.badAt .hourly fs) : errsOf (checkHourly fs) ≠ [] := by
  have hb : (match lookupField fs "hourly" with
      | none => True
      | some v => ∀ hd, validateHourly v ≠ Except.ok hd) := h
  rcases hv : lookupField fs "hourly" with _ | v
  · simp [checkHourly, hv, errsOf]
  · rw [hv] at hb
    have h' : ∀ hd, validateHourly v ≠ .ok hd := hb
    cases hval : validateHourly v with
    | ok hd => exact absurd hval (h' hd)
    | error e =>
      have hce : checkHourly fs = .error e := by simp [checkHourly, hv, hval]
      rw [hce]
      simpa [errsOf] using validateHourly_error_ne hval

theorem checkHourlyUnits_errs_ne_nil {fs : List (String × Json)}
    (h : TopField.badAt .hourly_units fs) :
    errsOf (checkHourlyUnits fs) ≠ [] := by
  have hb : (match lookupField fs "hourly_units" with
      | none => True
      | some v => ∀ u, validateHourlyUnits v ≠ Except.ok u) := h
  rcases hv : lookupField fs "hourly_units" with _ | v
  · simp [checkHourlyUnits, hv, errsOf]
  · rw [hv] at hb
    have h' : ∀ u, validateHourlyUnits v ≠ .ok u := hb
    cases hval : validateHourlyUnits v with
    | ok u => exact absurd hval (h' u)
    | error e =>
      have hce : checkHourlyUnits fs = .error e := by
        simp [checkHourlyUnits, hv, hval]
      rw [hce]
      simpa [errsOf] using validateHourlyUnits_error_ne hval

theorem mem_errsOf_checkHourly {fs : List (String × Json)} {l : String}
    (h : l ∈ errsOf (checkHourly fs)) :
    l = "hourly" ∨ l = "hourly.temperature_2m" ∨ l = "hourly.time" := by
  unfold checkHourly at h
  rcases hv : lookupField fs "hourly" with _ | v
  · rw [hv] at h
    simp [errsOf] at h
    exact .inl h
  · rw [hv] at h
    have h' : l ∈ errsOf (validateHourly v) := h
    cases v with
    | obj hfs2 =>
      unfold validateHourly at h'
      rw [errsOf_vApp, errsOf_vApp] at h'
      simp only [errsOf_ok, List.nil_append, List.mem_append] at h'
      rcases h' with h' | h'
      · exact .inr (.inl (mem_errsOf_checkField h'))
      · exact .inr (.inr (mem_errsOf_checkField h'))
    | num q => simp [validateHourly, errsOf] at h'; exact .inl h'
    | str s2 => simp [validateHourly, errsOf] at h'; exact .inl h'
    | jbool b => simp [validateHourly, errsOf] at h'; exact .inl h'
    | arr xs => simp [validateHourly, errsOf] at h'; exact .inl h'
    | null => simp [validateHourly, errsOf] at h'; exact .inl h'

theorem mem_errsOf_checkHourlyUnits {fs : List (String × Json)} {l : String}
    (h : l ∈ errsOf (checkHourlyUnits fs)) :
    l = "hourly_units" ∨ l = "hourly_units.temperature_2m" ∨
      l = "hourly_units.time" := by
  unfold checkHourlyUnits at h
  rcases hv : lookupField fs "hourly_units" with _ | v
  · rw [hv] at h
    simp [errsOf] at h
    exact .inl h
  · rw [hv] at h
    have h' : l ∈ errsOf (validateHourlyUnits v) := h
    cases v with
    | obj hfs2 =>
      unfold validateHourlyUnits at h'
      rw [errsOf_vApp, errsOf_vApp] at h'
      simp only [errsOf_ok, List.nil_append, List.mem_append] at h'
      rcases h' with h' | h'
      · exact .inr (.inl (mem_errsOf_checkField h'))
      · exact .inr (.inr (mem_errsOf_checkField h'))
    | num q => simp [validateHourlyUnits, errsOf] at h'; exact .inl h'
    | str s2 => simp [validateHourlyUnits, errsOf] at h'; exact .inl h'
    | jbool b => simp [validateHourlyUnits, errsOf] at h'; exact .inl h'
    | arr xs => simp [validateHourlyUnits, errsOf] at h'; exact .inl h'
    | null => simp [validateHourlyUnits, errsOf] at h'; exact .inl h'

/-! ## Claim theorems -/

/-- C1 (counterexample): the claim "a payload whose two hourly lists have
different lengths is rejected" is false. `unequalPayload` has one
temperature and two timestamps, every field well-typed, and the validator
accepts it, producing a `WeatherResult` whose hourly sequences have
different lengths. -/
theorem C1_unequal_lengths_accepted :
    mkWeatherResult unequalPayload = .ok unequalResult ∧
    unequalResult.hourly.temperature_2m.length = 1 ∧
    unequalResult.hourly.time.length = 2 := by
  exact ⟨rfl, rfl, rfl⟩

/-- C1 (amended): the validator checks only that `hourly.temperature_2m`
is a list of numbers and `hourly.time` a list of timestamps; it copies both
lists as-is, so each resulting sequence has exactly the length of the
corresponding payload list. No equal-length check is performed, so the two
sequences have identical length exactly when the payload's two lists do. -/
theorem C1_hourly_lengths_copied_from_payload (fs : List (String × Json))
    (r : WeatherResult) (h : mkWeatherResult fs = .ok r) :
    ∃ hfs tjs mjs, lookupField fs "hourly" = some (.obj hfs) ∧
      lookupField hfs "temperature_2m" = some (.arr tjs) ∧
      lookupField hfs "time" = some (.arr mjs) ∧
      r.hourly.temperature_2m.length = tjs.length ∧
      r.hourly.time.length = mjs.length :=
  checkHourly_ok (mkWeatherResult_ok_hourly h)

/-- C1 (witness): the amended theorem applied to the well-formed 3-entry
sample payload. -/
theorem C1_hourly_lengths_copied_from_payload_witness :
    ∃ hfs tjs mjs, lookupField samplePayload3 "hourly" = some (.obj hfs) ∧
      lookupField hfs "temperature_2m" = some (.arr tjs) ∧
      lookupField hfs "time" = some (.arr mjs) ∧
      sampleResult3.hourly.temperature_2m.length = tjs.length ∧
      sampleResult3.hourly.time.length = mjs.length :=
  C1_hourly_lengths_copied_from_payload samplePayload3 sampleResult3 rfl

/-- C2: every pipeline failure delivered to the (live) background fetch is
caught and rendered inline: `fetch_weather_data` is a total function on all
three error kinds, and the resulting screen state has the submit control
re-enabled, an inline `Error: ...` status in red, and the results area
cleared; no exception escapes to the event loop. -/
theorem C2_errors_caught_and_rendered (e : WeatherError) (location : String)
    (s : UIState) :
    (fetch_weather_data false (.error e) location s).submitDisabled = false ∧
    (fetch_weather_data false (.error e) location s).submitText = "Submit" ∧
    (fetch_weather_data false (.error e) location s).statusMessage =
      "Error: " ++ errMessage e ∧
    (fetch_weather_data false (.error e) location s).statusColor = "red" ∧
    (fetch_weather_data false (.error e) location s).resultsText = "" ∧
    (fetch_weather_data false (.error e) location s).pendingWorkers =
      s.pendingWorkers := by
  simp [fetch_weather_data, handle_weather_error, update_status]

/-- C3 (counterexample): the claim "every non-success HTTP status raises
HttpError and the validator is never reached" is false. Status 304 is not a
success status, yet `raise_for_status` (which fires only for 400–599) lets
it through: the run parses and validates the body, constructs a
`WeatherResult`, and raises nothing. -/
theorem C3_status_304_reaches_validator :
    (stubHttp304 (103 / 2) (-3 / 25)).status = 304 ∧
    run_weather_request stubGeocode stubHttp304 "London, England" =
      (.ok sampleResult3,
       [.geocodeCall "London, England", .httpGet (103 / 2) (-3 / 25),
        .validateStep]) := by
  exact ⟨rfl, rfl⟩

/-- C3 (amended): for every remote response whose final status is a client
or server error (400–599) — the statuses `requests.raise_for_status`
raises on — `run_weather_request` raises `HttpError` with that status and
the validation step is never executed: no `WeatherResult` is constructed
and the body is never parsed. Other non-2xx statuses (e.g. 304) proceed to
parsing. -/
theorem C3_error_status_short_circuits (geocode : String → Option GeoLocation)
    (http : ℚ → ℚ → HttpResponse) (address : String) (loc : GeoLocation)
    (hg : geocode address = some loc)
    (h4 : 400 ≤ (http loc.latitude loc.longitude).status)
    (h6 : (http loc.latitude loc.longitude).status < 600) :
    run_weather_request geocode http address =
      (.error (.httpError (http loc.latitude loc.longitude).status),
       [.geocodeCall address, .httpGet loc.latitude loc.longitude]) ∧
    Effect.validateStep ∉ (run_weather_request geocode http address).2 := by
  have h1 : get_longitude_and_latitude_for_address geocode address =
      .ok (loc.latitude, loc.longitude) := by
    simp [get_longitude_and_latitude_for_address, hg]
  have heq : run_weather_request geocode http address =
      (.error (.httpError (http loc.latitude loc.longitude).status),
       [.geocodeCall address, .httpGet loc.latitude loc.longitude]) := by
    unfold run_weather_request
    rw [h1]
    simp [raise_for_status, h4, h6]
  refine ⟨heq, ?_⟩
  rw [heq]
  simp

/-- C3 (witness): the amended theorem applied to a stubbed 404 response. -/
theorem C3_error_status_short_circuits_witness :
    run_weather_request stubGeocode stubHttp404 "London, England" =
      (.error (.httpError (stubHttp404 (103 / 2) (-3 / 25)).status),
       [.geocodeCall "London, England", .httpGet (103 / 2) (-3 / 25)]) ∧
    Effect.validateStep ∉
      (run_weather_request stubGeocode stubHttp404 "London, England").2 :=
  C3_error_status_short_circuits stubGeocode stubHttp404 "London, England"
    ⟨103 / 2, -3 / 25⟩ rfl (by decide) (by decide)

/-- C4 (counterexample): the claim "while a request is in flight,
triggering a second request by any user action is a no-op" is false for
Enter in the location input. In `inFlightState` a fetch is pending (submit
button disabled, one worker started); Enter in the location input calls
`submit_weather_request` with no in-flight guard and starts a second
worker. -/
theorem C4_enter_starts_second_worker :
    inFlightState.submitDisabled = true ∧
    inFlightState.pendingWorkers.length = 1 ∧
    (on_input_submitted inFlightState "location-input").pendingWorkers.length
      = 2 := by
  exact ⟨rfl, rfl, rfl⟩

/-- C4 (amended): while a request is in flight only the Submit button path
is guarded: the disabled button swallows the press, so a button press is a
no-op; Enter in the location input is not guarded and (for a non-blank
location) starts a second worker before the first completes. -/
theorem C4_only_button_path_guarded (s : UIState) (hd : s.submitDisabled = true) :
    press_submit_button s = s ∧
    (pyStrip s.inputValue ≠ "" →
      (on_input_submitted s "location-input").pendingWorkers =
        s.pendingWorkers ++ [pyStrip s.inputValue]) := by
  constructor
  · simp [press_submit_button, hd]
  · intro hne
    simp [on_input_submitted, submit_weather_request, hne, update_status]

/-- C4 (witness): the amended theorem applied to the concrete in-flight
state. -/
theorem C4_only_button_path_guarded_witness :
    press_submit_button inFlightState = inFlightState ∧
    (pyStrip inFlightState.inputValue ≠ "" →
      (on_input_submitted inFlightState "location-input").pendingWorkers =
        inFlightState.pendingWorkers ++ [pyStrip inFlightState.inputValue]) :=
  C4_only_button_path_guarded inFlightState rfl

/-- C5: the Geocode Resolver fails with the not-found error exactly when
the provider returns no match, and returns the provider's coordinate pair
on a match. -/
theorem C5_geocode_not_found_or_pair (geocode : String → Option GeoLocation)
    (address : String) :
    (geocode address = none →
      get_longitude_and_latitude_for_address geocode address =
        .error (.notFound "Could not find coordinates for address")) ∧
    (∀ loc, geocode address = some loc →
      get_longitude_and_latitude_for_address geocode address =
        .ok (loc.latitude, loc.longitude)) := by
  constructor
  · intro h
    simp [get_longitude_and_latitude_for_address, h]
  · intro loc h
    simp [get_longitude_and_latitude_for_address, h]

/-- C5 (witness): the theorem applied to a stubbed not-found provider and
to a stubbed matching provider. -/
theorem C5_geocode_not_found_or_pair_witness :
    get_longitude_and_latitude_for_address stubGeocodeNone "Nowhere" =
      .error (.notFound "Could not find coordinates for address") ∧
    get_longitude_and_latitude_for_address stubGeocode "London, England" =
      .ok (103 / 2, -3 / 25) :=
  ⟨(C5_geocode_not_found_or_pair stubGeocodeNone "Nowhere").1 rfl,
   (C5_geocode_not_found_or_pair stubGeocode "London, England").2
     ⟨103 / 2, -3 / 25⟩ rfl⟩

/-- C6: for every payload missing any required field or containing a field
of the wrong shape, construction of `WeatherResult` fails with a
`ValidationError` naming the offending field(s): the error list is exactly
the concatenation of the per-field error locations; the bad field's own
validation reports at least one location; each of those locations names
that field (its key, or for the nested models an inner location prefixed
with the key); and all of them appear in the final error list. -/
theorem C6_bad_field_fails_named (fs : List (String × Json)) (f : TopField)
    (h : TopField.badAt f fs) :
    ∃ es, mkWeatherResult fs = .error es ∧ es = componentErrors fs ∧
      TopField.errs f fs ≠ [] ∧ TopField.errs f fs ⊆ es ∧
      ∀ l ∈ TopField.errs f fs, l ∈ TopField.labels f := by
  have hne : TopField.errs f fs ≠ [] := by
    cases f with
    | hourly => exact checkHourly_errs_ne_nil h
    | hourly_units => exact checkHourlyUnits_errs_ne_nil h
    | elevation => simp [TopField.errs, scalarBad_checkField "elevation" h, errsOf]
    | latitude => simp [TopField.errs, scalarBad_checkField "latitude" h, errsOf]
    | longitude => simp [TopField.errs, scalarBad_checkField "longitude" h, errsOf]
    | timezone => simp [TopField.errs, scalarBad_checkField "timezone" h, errsOf]
    | timezone_abbreviation =>
      simp [TopField.errs, scalarBad_checkField "timezone_abbreviation" h, errsOf]
    | utc_offset_seconds =>
      simp [TopField.errs, scalarBad_checkField "utc_offset_seconds" h, errsOf]
    | generationtime_ms =>
      simp [TopField.errs, scalarBad_checkField "generationtime_ms" h, errsOf]
  have hlab : ∀ l ∈ TopField.errs f fs, l ∈ TopField.labels f := by
    cases f with
    | hourly =>
      intro l hl
      simpa [TopField.labels] using mem_errsOf_checkHourly hl
    | hourly_units =>
      intro l hl
      simpa [TopField.labels] using mem_errsOf_checkHourlyUnits hl
    | elevation =>
      intro l hl
      simp [TopField.labels, TopField.key, mem_errsOf_checkField hl]
    | latitude =>
      intro l hl
      simp [TopField.labels, TopField.key, mem_errsOf_checkField hl]
    | longitude =>
      intro l hl
      simp [TopField.labels, TopField.key, mem_errsOf_checkField hl]
    | timezone =>
      intro l hl
      simp [TopField.labels, TopField.key, mem_errsOf_checkField hl]
    | timezone_abbreviation =>
      intro l hl
      simp [TopField.labels, TopField.key, mem_errsOf_checkField hl]
    | utc_offset_seconds =>
      intro l hl
      simp [TopField.labels, TopField.key, mem_errsOf_checkField hl]
    | generationtime_ms =>
      intro l hl
      simp [TopField.labels, TopField.key, mem_errsOf_checkField hl]
  have hsub : TopField.errs f fs ⊆ componentErrors fs := by
    cases f <;>
      · intro l hl
        simp only [TopField.errs] at hl
        simp only [componentErrors, List.mem_append]
        tauto
  have hCEne : componentErrors fs ≠ [] := by
    intro hnil
    exact hne (List.subset_nil.mp (hnil ▸ hsub))
  cases hm : mkWeatherResult fs with
  | ok r =>
    have herr := errsOf_mkWeatherResult fs
    rw [hm] at herr
    exact absurd herr.symm hCEne
  | error es =>
    have herr := errsOf_mkWeatherResult fs
    rw [hm] at herr
    simp [errsOf] at herr
    exact ⟨es, rfl, herr, hne, by rw [herr]; exact hsub, hlab⟩

/-- C6 (witness): the theorem applied to the claim's particular instance,
the sample payload with the `latitude` key removed: validation fails and
`latitude` is among the reported locations. -/
theorem C6_bad_field_fails_named_witness :
    (∃ es, mkWeatherResult noLatitudePayload = .error es ∧
      es = componentErrors noLatitudePayload ∧
      TopField.errs TopField.latitude noLatitudePayload ≠ [] ∧
      TopField.errs TopField.latitude noLatitudePayload ⊆ es ∧
      ∀ l ∈ TopField.errs TopField.latitude noLatitudePayload,
        l ∈ TopField.labels TopField.latitude) ∧
    "latitude" ∈ componentErrors noLatitudePayload :=
  ⟨C6_bad_field_fails_named noLatitudePayload TopField.latitude (by exact trivial),
   by decide⟩

/-- C7: for a result whose two hourly sequences have length `k`, the
Presenter's text contains the input address and exactly `min k 24`
formatted hourly lines, one per entry in input order: the text is the
location header, the metadata block, then the joined hourly lines. -/
theorem C7_output_address_and_lines (location : String) (r : WeatherResult)
    (k : Nat) (ht : r.hourly.time.length = k)
    (hm : r.hourly.temperature_2m.length = k) :
    (hourlyLines r.hourly.time r.hourly.temperature_2m).length = min k 24 ∧
    (∃ a b, results_text location r = a ++ location ++ b) ∧
    results_text location r =
      "Weather for: " ++ location ++ metaBlock r ++
        String.join (hourlyLines r.hourly.time r.hourly.temperature_2m) := by
  refine ⟨?_, ⟨"Weather for: ",
    metaBlock r ++
      String.join (hourlyLines r.hourly.time r.hourly.temperature_2m),
    by rw [results_text, String.append_assoc]⟩, rfl⟩
  simp [hourlyLines, ht, hm]
  omega

/-- C7 (witness): the end-to-end scenario figures: for the address
"London, England" and the 3-entry sample result, the output has exactly 3
formatted lines and contains the address. -/
theorem C7_output_address_and_lines_witness :
    (hourlyLines sampleResult3.hourly.time
      sampleResult3.hourly.temperature_2m).length = 3 ∧
    (∃ a b, results_text "London, England" sampleResult3 =
      a ++ "London, England" ++ b) := by
  obtain ⟨h1, h2, _⟩ :=
    C7_output_address_and_lines "London, England" sampleResult3 3 rfl rfl
  exact ⟨h1.trans (by decide), h2⟩

/-- C8: if the worker is cancelled while the request is pending, the
background fetch checks the liveness flag before any UI update and
discards the pending result or error: whatever the pipeline outcome, the
screen state is left completely unchanged. -/
theorem C8_cancelled_no_ui_mutation (result : Except WeatherError WeatherResult)
    (location : String) (s : UIState) :
    fetch_weather_data true result location s = s := by
  cases result <;> simp [fetch_weather_data]

/-- C9: the Forecast Result is passed unchanged from the validator to the
Presenter: whenever the pipeline succeeds with result `r`, every later
read observes exactly `r` as constructed — the rendered text is
`results_text` of `r` and the chart call receives `r`'s own sequences. -/
theorem C9_result_immutable_to_presenter (geocode : String → Option GeoLocation)
    (http : ℚ → ℚ → HttpResponse) (address : String) (s : UIState)
    (r : WeatherResult)
    (h : (run_weather_request geocode http address).1 = .ok r) :
    (pipeline_and_display geocode http address false s).resultsText =
      results_text address r ∧
    (pipeline_and_display geocode http address false s).graphCalls =
      s.graphCalls ++
        [(r.hourly.time.take 24, r.hourly.temperature_2m.take 24, address)] ∧
    (pipeline_and_display geocode http address false s).submitDisabled =
      false := by
  unfold pipeline_and_display
  rw [h]
  simp [fetch_weather_data, display_weather_results, update_status]

/-- C9 (witness): the theorem applied to the stubbed 200 environment and
the pending London screen state. -/
theorem C9_result_immutable_to_presenter_witness :
    (pipeline_and_display stubGeocode stubHttp200 "London, England" false
      londonPendingState).resultsText =
      results_text "London, England" sampleResult3 ∧
    (pipeline_and_display stubGeocode stubHttp200 "London, England" false
      londonPendingState).graphCalls =
      londonPendingState.graphCalls ++
        [(sampleResult3.hourly.time.take 24,
          sampleResult3.hourly.temperature_2m.take 24, "London, England")] ∧
    (pipeline_and_display stubGeocode stubHttp200 "London, England" false
      londonPendingState).submitDisabled = false :=
  C9_result_immutable_to_presenter stubGeocode stubHttp200 "London, England"
    londonPendingState sampleResult3 rfl

/-- C10: submitting with a blank (empty or whitespace-only) location
starts no worker, leaves the enabled submit control enabled and its label
unchanged, leaves the results area unchanged, and only sets the inline
"Please enter a location" error status. -/
theorem C10_blank_location_rejected_inline (s : UIState)
    (h1 : pyStrip s.inputValue = "") (h2 : s.submitDisabled = false) :
    (submit_weather_request s).pendingWorkers = s.pendingWorkers ∧
    (submit_weather_request s).submitDisabled = false ∧
    (submit_weather_request s).submitText = s.submitText ∧
    (submit_weather_request s).statusMessage = "Please enter a location" ∧
    (submit_weather_request s).statusColor = "red" ∧
    (submit_weather_request s).resultsText = s.resultsText ∧
    (submit_weather_request s).graphCalls = s.graphCalls := by
  simp [submit_weather_request, h1, update_status, h2]

/-- C10 (witness): the theorem applied to the screen state with a
whitespace-only location typed in. -/
theorem C10_blank_location_rejected_inline_witness :
    (submit_weather_request whitespaceState).pendingWorkers =
      whitespaceState.pendingWorkers ∧
    (submit_weather_request whitespaceState).submitDisabled = false ∧
    (submit_weather_request whitespaceState).submitText =
      whitespaceState.submitText ∧
    (submit_weather_request whitespaceState).statusMessage =
      "Please enter a location" ∧
    (submit_weather_request whitespaceState).statusColor = "red" ∧
    (submit_weather_request whitespaceState).resultsText =
      whitespaceState.resultsText ∧
    (submit_weather_request whitespaceState).graphCalls =
      whitespaceState.graphCalls :=
  C10_blank_location_rejected_inline whitespaceState rfl rfl

end ApiManager
